import Mathlib

/-!
Shallow embedding of the BAP sync adapter (Go, Fiber + Redis) and proofs
about its specification claims.

The embedding follows the Go sources:
  * `cmd/server/main.go` and `internal/controllers/callback_manager.go`
    (route table, pending-key/channel derivation, the Redis-backed
    callback manager: AddPendingRequest / WaitForCallback /
    PublishCallback / RemovePendingRequest);
  * `internal/controllers/forward_controller.go` (ForwardRequest and
    forwardRequestSync, transform + gzip handling);
  * `internal/controllers/webhook_controller.go` (HandleWebhook);
  * `internal/transformers/*` (Loader, Transformer, TransformForward,
    CreateMappingErrorResponse).

External collaborators (Redis itself, the HTTP client, the JSONata
engine) are modelled as oracles/parameters; the store is explicit state
(a list of present keys) and every store/pub-sub side effect is recorded
in an event trace so that ordering properties can be stated.
-/

namespace BAP

/-- JSON values, the payload universe of the adapter.  Numbers are
modelled as integers (no claim touches numeric payloads). -/
inductive Json where
  | null : Json
  | bool (b : Bool) : Json
  | num (n : Int) : Json
  | str (s : String) : Json
  | arr (elems : List Json) : Json
  | obj (fields : List (String × Json)) : Json
deriving Repr

/-- Byte strings, modelled with just enough structure for the adapter:
whether they parse as JSON (and as which value), and whether they are a
well-formed gzip stream (and of what).  A gzip stream never parses as
JSON (its magic bytes 0x1f 0x8b are not valid JSON text). -/
inductive Bytes where
  /-- bytes that parse as the JSON value `j` -/
  | json (j : Json) : Bytes
  /-- bytes that are not valid JSON and not a valid gzip stream -/
  | nonJson (s : String) : Bytes
  /-- a well-formed gzip stream whose decompression is `inner` -/
  | gzipped (inner : Bytes) : Bytes
deriving Repr

/-- `json.Unmarshal` seen as a partial parse: which JSON value, if any,
a byte string denotes. -/
def parseBytes : Bytes → Option Json
  | .json j => some j
  | _ => none

/-- `gzip.NewReader` + `io.ReadAll`: decompression of a byte string,
failing when the bytes are not a well-formed gzip stream. -/
def gunzip : Bytes → Option Bytes
  | .gzipped inner => some inner
  | _ => none

/-- ASCII lowercasing of a string (`strings.ToLower` on the header
values the adapter inspects). -/
def lowerString (s : String) : String := ⟨s.data.map Char.toLower⟩

/-- Field lookup in a decoded JSON object, as Go's `encoding/json` does
it when filling a struct: the last occurrence of a duplicated key wins,
and an exact name match is preferred over a case-insensitive one. -/
def lookupField (fields : List (String × Json)) (k : String) : Option Json :=
  match fields.foldl (fun acc p => if p.1 = k then some p.2 else acc) none with
  | some v => some v
  | none =>
      fields.foldl (fun acc p => if lowerString p.1 = lowerString k then some p.2 else acc) none

/-- Go unmarshalling of a JSON value into a `string` struct field:
a string gives itself, `null` leaves the zero value `""`, anything else
is a type error. -/
def unmarshalString : Json → Option String
  | .str s => some s
  | .null => some ""
  | _ => none

/-- Unmarshalling the `context` object of `RequestContext`
(`forward_controller.go`): reads `transaction_id` and `message_id`,
missing fields default to `""`, wrongly-typed fields are an error. -/
def unmarshalContextObj : Json → Option (String × String)
  | .null => some ("", "")
  | .obj fields => do
      let txn ← match lookupField fields "transaction_id" with
        | some v => unmarshalString v
        | none => some ""
      let msg ← match lookupField fields "message_id" with
        | some v => unmarshalString v
        | none => some ""
      pure (txn, msg)
  | _ => none

/-- `json.Unmarshal(body, &reqContext)` for
`RequestContext { context { transaction_id, message_id } }`:
returns the `(transaction_id, message_id)` pair, or `none` when the
value cannot be unmarshalled into the struct. -/
def unmarshalRequestContext : Json → Option (String × String)
  | .null => some ("", "")
  | .obj fields =>
      match lookupField fields "context" with
      | some v => unmarshalContextObj v
      | none => some ("", "")
  | _ => none

/-- `RouteMapping` (`callback_manager.go`): the static forward-route to
callback-route table, in source order.  Note that it contains the two
sync actions `discover` and `search` as well. -/
def RouteMapping : List (String × String) :=
  [("discover", "on_discover"),
   ("search", "on_search"),
   ("select", "on_select"),
   ("init", "on_init"),
   ("confirm", "on_confirm"),
   ("update", "on_update"),
   ("track", "on_track"),
   ("rating", "on_rating"),
   ("support", "on_support"),
   ("cancel", "on_cancel"),
   ("status", "on_status")]

/-- The reverse lookup performed by `HandleWebhook`: find the forward
route whose callback route is `callback`.  The Go code iterates the map
and breaks on the first match; since the callback names are pairwise
distinct the result does not depend on iteration order, and we use the
source order of the literal. -/
def reverseLookup (callback : String) : Option String :=
  (RouteMapping.find? (fun p => p.2 = callback)).map (fun p => p.1)

/-- `isSyncRoute` (`forward_controller.go`): search and discover use the
synchronous leg. -/
def isSyncRoute (subRoute : String) : Bool :=
  subRoute = "search" || subRoute = "discover"

/-- `makePendingKey` (`callback_manager.go`):
`Sprintf("Sync#%s#%s#%s", subRoute, messageID, transactionID)` — note
the message id comes before the transaction id. -/
def makePendingKey (subRoute transactionID messageID : String) : String :=
  "Sync#" ++ subRoute ++ "#" ++ messageID ++ "#" ++ transactionID

/-- `makeCallbackChannel` (`callback_manager.go`):
`Sprintf("Callback#%s#%s#%s", subRoute, messageID, transactionID)`. -/
def makeCallbackChannel (subRoute transactionID messageID : String) : String :=
  "Callback#" ++ subRoute ++ "#" ++ messageID ++ "#" ++ transactionID

/-! ## Transformer (`internal/transformers`) -/

/-- `TransformDirection` (`loader.go`). -/
inductive TransformDirection where
  | forward
  | reverse
deriving Repr, DecidableEq

/-- The string a direction prints as (its Go constant value). -/
def TransformDirection.asString : TransformDirection → String
  | .forward => "forward"
  | .reverse => "reverse"

/-- `RouteTransform` (`loader.go`): the pair of JSONata templates for a
route; an empty string means the direction is undefined. -/
structure RouteTransform where
  Forward : String
  Reverse : String
deriving Repr

/-- `TransformError` (`transformer.go`). -/
structure TransformError where
  Route : String
  Direction : String
  Message : String
  Err : Option String
deriving Repr

/-- The loaded `Transformer` (`transformer.go`), bundling the mapping
table of its `Loader` with an oracle for the external JSONata engine
(out of scope per the design, consumed as a pure function):
`compileErr tmpl` is the `jsonata.Compile` failure for a template, if
any, and `eval tmpl input` the `expr.Eval` outcome on parsed input. -/
structure Transformer where
  mappings : List (String × RouteTransform)
  compileErr : String → Option String
  eval : String → Json → Except String Json

/-- Association-list lookup standing for Go map indexing (keys in a
loaded YAML map are unique). -/
def lookupAssoc (l : List (String × RouteTransform)) (k : String) : Option RouteTransform :=
  (l.find? (fun p => p.1 = k)).map (fun p => p.2)

/-- `Loader.GetRouteTransform`. -/
def GetRouteTransform (t : Transformer) (route : String) : Except String RouteTransform :=
  match lookupAssoc t.mappings route with
  | some transform => .ok transform
  | none => .error ("no mapping found for route: " ++ route)

/-- `Loader.GetTransformTemplate`. -/
def GetTransformTemplate (t : Transformer) (route : String)
    (direction : TransformDirection) : Except String String :=
  match GetRouteTransform t route with
  | .error e => .error e
  | .ok transform =>
    match direction with
    | .forward =>
        if transform.Forward = "" then
          .error ("no forward transformation defined for route: " ++ route)
        else .ok transform.Forward
    | .reverse =>
        if transform.Reverse = "" then
          .error ("no reverse transformation defined for route: " ++ route)
        else .ok transform.Reverse

/-- `Loader.HasMapping` / `Transformer.HasMapping`. -/
def HasMapping (t : Transformer) (route : String) : Bool :=
  (lookupAssoc t.mappings route).isSome

/-- `Transformer.Transform` (`transformer.go`): template lookup, input
parse, JSONata compile, evaluate, marshal (marshalling a JSON value
cannot fail in this model).  Each failure is wrapped in a
`TransformError` carrying the requested route and direction. -/
def Transform (t : Transformer) (route : String) (direction : TransformDirection)
    (inputJSON : Bytes) : Except TransformError Bytes :=
  match GetTransformTemplate t route direction with
  | .error e => .error ⟨route, direction.asString, "template not found", some e⟩
  | .ok template =>
    match parseBytes inputJSON with
    | none => .error ⟨route, direction.asString, "failed to parse input JSON", some "invalid JSON input"⟩
    | some inputData =>
      match t.compileErr template with
      | some e => .error ⟨route, direction.asString, "failed to compile transformation template", some e⟩
      | none =>
        match t.eval template inputData with
        | .error e => .error ⟨route, direction.asString, "failed to evaluate transformation", some e⟩
        | .ok result => .ok (Bytes.json result)

/-- `Transformer.TransformForward`. -/
def TransformForward (t : Transformer) (route : String) (inputJSON : Bytes) :
    Except TransformError Bytes :=
  Transform t route TransformDirection.forward inputJSON

/-- `CreateMappingErrorResponse` (`transformer.go`): the structured
`mappingError` body.  On this code path the error is always a
`*TransformError`, so the detailed branch of the type assertion is
taken; the `error` entry is added only when the wrapped error is
non-nil.  Go map iteration order is not observable at the JSON-value
level; fields are listed in insertion order. -/
def CreateMappingErrorResponse (route : String) (err : TransformError) : Json :=
  Json.obj [("mappingError", Json.obj
    ([("route", Json.str route),
      ("message", Json.str "Failed to transform response"),
      ("direction", Json.str err.Direction),
      ("details", Json.str err.Message)] ++
     (match err.Err with
      | some e => [("error", Json.str e)]
      | none => [])))]

/-! ## Callback manager (`callback_manager.go`) -/

/-- `CallbackResponse` (`callback_manager.go`): the envelope published
to wake a pending slot. -/
structure CallbackResponse where
  Body : Bytes
  StatusCode : Nat
  Headers : List (String × String)

/-- A message payload on a wake channel.  The only publisher in the
system marshals a `CallbackResponse` (and `json.Marshal`/`Unmarshal`
round-trip on that struct); `raw` stands for any other bytes — those
that do not decode as a `CallbackResponse`. -/
inductive Payload where
  | enc (r : CallbackResponse) : Payload
  | raw (b : Bytes) : Payload

/-- `json.Unmarshal(msg.Payload, &response)` in `WaitForCallback`. -/
def unmarshalCallbackResponse : Payload → Option CallbackResponse
  | .enc r => some r
  | .raw _ => none

/-- The store state: the set of currently present pending keys. -/
abbrev StoreState := List String

/-- Observable store / pub-sub effects, recorded in execution order. -/
inductive Event where
  /-- Redis `SET key ... EX ttl` (slot registration) -/
  | setKey (key : String) (ttlSeconds : Nat) : Event
  /-- Redis `EXISTS key` -/
  | existsCheck (key : String) : Event
  /-- Redis `PUBLISH channel payload` -/
  | publish (channel : String) (payload : Payload) : Event
  /-- Redis `DEL key` -/
  | delKey (key : String) : Event
  /-- Redis `SUBSCRIBE channel` -/
  | subscribe (channel : String) : Event
  /-- spawn of the detached upstream dispatch (`go forwardRequestAsync`) -/
  | dispatch (url : String) : Event

/-- Whether an event is a slot registration. -/
def Event.isSetKey : Event → Bool
  | .setKey _ _ => true
  | _ => false

/-- Injected store failure point for the webhook path: which Redis call
of `PublishCallback`, if any, returns an error (store unreachable). -/
inductive StoreFail where
  | none
  | atExists
  | atPublish
  | atDel
deriving Repr, DecidableEq

/-- Client-side wait timeout (`30 * time.Second` in `ForwardRequest`). -/
def clientWaitSeconds : Nat := 30

/-- Pending-slot TTL (`35 * time.Second` in `AddPendingRequest`). -/
def pendingTTLSeconds : Nat := 35

/-- `AddPendingRequest` (`callback_manager.go`): store the slot with a
35-second TTL.  `fail` injects a store error (Redis `SET` failing); the
metadata value is immaterial (only key existence is ever read). -/
def AddPendingRequest (fail : Bool) (st : StoreState)
    (subRoute transactionID messageID : String) :
    Except String StoreState × List Event :=
  let key := makePendingKey subRoute transactionID messageID
  if fail then (.error "store unreachable", [])
  else (.ok (key :: st), [Event.setKey key pendingTTLSeconds])

/-- What arrives (or not) on the wake channel while the waiter is
subscribed: the environment's side of `WaitForCallback`. -/
inductive WakeOutcome where
  | timeout : WakeOutcome
  | message (p : Payload) : WakeOutcome

/-- `WaitForCallback` (`callback_manager.go`): subscribe to the derived
channel, then either a message arrives (decoded as a
`CallbackResponse`; a decode failure is returned as an error) or the
timeout elapses (returned as an error). -/
def WaitForCallback (wake : WakeOutcome) (subRoute transactionID messageID : String)
    (_timeoutSeconds : Nat) : Except String CallbackResponse × List Event :=
  let channel := makeCallbackChannel subRoute transactionID messageID
  match wake with
  | .timeout => (.error "timeout waiting for callback", [Event.subscribe channel])
  | .message p =>
    match unmarshalCallbackResponse p with
    | none => (.error "failed to unmarshal callback response", [Event.subscribe channel])
    | some response => (.ok response, [Event.subscribe channel])

/-- `PublishCallback` (`callback_manager.go`): check the pending slot
exists (absent → `no pending request found`), publish the marshalled
envelope on the derived channel, then delete the slot.  `fail` injects
a store error at one of the three Redis calls. -/
def PublishCallback (fail : StoreFail) (st : StoreState)
    (subRoute transactionID messageID : String) (response : CallbackResponse) :
    Except String Unit × StoreState × List Event :=
  let key := makePendingKey subRoute transactionID messageID
  if fail = StoreFail.atExists then
    (.error "store unreachable: exists", st, [])
  else if !(st.contains key) then
    (.error "no pending request found", st, [Event.existsCheck key])
  else
    let channel := makeCallbackChannel subRoute transactionID messageID
    if fail = StoreFail.atPublish then
      (.error "store unreachable: publish", st, [Event.existsCheck key])
    else if fail = StoreFail.atDel then
      (.error "store unreachable: del", st,
        [Event.existsCheck key, Event.publish channel (Payload.enc response)])
    else
      (.ok (), st.filter (fun k => k ≠ key),
        [Event.existsCheck key, Event.publish channel (Payload.enc response),
         Event.delKey key])

/-- `RemovePendingRequest` (`callback_manager.go`): idempotent slot
delete (the deferred cleanup in `ForwardRequest` ignores its error). -/
def RemovePendingRequest (st : StoreState)
    (subRoute transactionID messageID : String) : StoreState × List Event :=
  let key := makePendingKey subRoute transactionID messageID
  (st.filter (fun k => k ≠ key), [Event.delKey key])

/-! ## HTTP layer (`forward_controller.go`, `webhook_controller.go`) -/

/-- An inbound HTTP request as the handlers see it: the catch-all path
parameter (`c.Params("*")`), the raw body bytes (`c.Body()`), and the
request headers. -/
structure HttpRequest where
  wildcard : String
  body : Bytes
  headers : List (String × String)

/-- The response written to the client: status, headers set via
`c.Set`, and body bytes. -/
structure HttpResponse where
  status : Nat
  headers : List (String × String)
  body : Bytes

/-- A `fiber.Map` JSON error body `{"error": msg}`. -/
def errorBody (msg : String) : Bytes :=
  Bytes.json (Json.obj [("error", Json.str msg)])

/-- The ACK body returned by the webhook handler. -/
def ackBody : Bytes :=
  Bytes.json (Json.obj [("message", Json.obj [("ack", Json.obj [("status", Json.str "ACK")])])])

/-- The timeout NACK body returned by `ForwardRequest` on a wait
error (built from the `fiber.Map` literal at
`forward_controller.go:361-372`). -/
def timeoutNackBody : Bytes :=
  Bytes.json (Json.obj
    [("message", Json.obj [("ack", Json.obj [("status", Json.str "NACK")])]),
     ("error", Json.obj
       [("type", Json.str "TIMEOUT"),
        ("code", Json.str "REQUEST_TIMEOUT"),
        ("message", Json.str "No response received within 30 seconds")])])

/-- The missing-pending NACK body returned by `HandleWebhook` when
`PublishCallback` errors. -/
def noPendingNackBody : Bytes :=
  Bytes.json (Json.obj
    [("message", Json.obj [("ack", Json.obj [("status", Json.str "NACK")])]),
     ("error", Json.obj
       [("message", Json.str "No pending request found for this transaction")])])

/-- Parse the request body far enough to read
`context.transaction_id` / `context.message_id`, as both handlers do:
`none` when `json.Unmarshal` fails. -/
def contextOf (body : Bytes) : Option (String × String) :=
  match parseBytes body with
  | none => none
  | some j => unmarshalRequestContext j

/-- The upstream HTTP response as read by the sync leg (status, headers
and raw body bytes of `httpClient.Do`). -/
structure UpstreamResponse where
  StatusCode : Nat
  Headers : List (String × String)
  body : Bytes

/-- `resp.Header.Get`: first value of a header key (Go canonicalises
keys; the model assumes canonical keys). -/
def headerGet (headers : List (String × String)) (k : String) : String :=
  match headers.find? (fun p => p.1 = k) with
  | some p => p.2
  | none => ""

/-- Substring test (for `strings.Contains`). -/
def containsSubstr (s sub : String) : Bool :=
  (List.range (s.length + 1)).any (fun i => sub.data.isPrefixOf (s.data.drop i))

/-- The request-body transform stage of `forwardRequestSync`
(`forward_controller.go:385-407`): when the transformer is available
and has a mapping for the route, apply its forward transform to the
request body; otherwise pass the body through. -/
def syncRequestStage (tr : Option Transformer) (subRoute : String) (body : Bytes) :
    Except TransformError Bytes :=
  match tr with
  | some t =>
    if HasMapping t subRoute then TransformForward t subRoute body
    else .ok body
  | none => .ok body

/-- The gzip stage of `forwardRequestSync`
(`forward_controller.go:445-458`): when `Content-Encoding` contains
`gzip` (case-insensitively), decompress, failing on a malformed
stream. -/
def gzipStage (resp : UpstreamResponse) : Except Unit Bytes :=
  if containsSubstr (lowerString (headerGet resp.Headers "Content-Encoding")) "gzip" then
    match gunzip resp.body with
    | some b => .ok b
    | none => .error ()
  else .ok resp.body

/-- The response-body transform stage of `forwardRequestSync`
(`forward_controller.go:471-491`): when the transformer is available
and has a mapping for the callback route `"on_" ++ subRoute`, apply the
*forward* transform of that callback-named template to the
(decompressed) response body.  An error carries the callback route the
mapping-error body is built from. -/
def syncResponseStage (tr : Option Transformer) (subRoute : String) (respBody : Bytes) :
    Except (String × TransformError) Bytes :=
  match tr with
  | some t =>
    let callbackRoute := "on_" ++ subRoute
    if HasMapping t callbackRoute then
      match TransformForward t callbackRoute respBody with
      | .ok out => .ok out
      | .error e => .error (callbackRoute, e)
    else .ok respBody
  | none => .ok respBody

/-- `forwardRequestSync` (`forward_controller.go:385-504`): the
synchronous leg.  `tr` is the `GetTransformer()` outcome (`none` when
the transformer failed to initialise), `upstream` the outcome of
`httpClient.Do` (`none` = network error). -/
def forwardRequestSync (tr : Option Transformer) (upstream : Option UpstreamResponse)
    (subRoute : String) (body : Bytes) : HttpResponse :=
  match syncRequestStage tr subRoute body with
  | .error e =>
      { status := 500, headers := [],
        body := Bytes.json (CreateMappingErrorResponse subRoute e) }
  | .ok _requestBody =>
    match upstream with
    | none =>
        { status := 502, headers := [],
          body := errorBody "Failed to forward request to ONIX service" }
    | some resp =>
      match gzipStage resp with
      | .error _ =>
          { status := 500, headers := [],
            body := errorBody "Failed to decompress response" }
      | .ok respBody =>
        match syncResponseStage tr subRoute respBody with
        | .error (callbackRoute, e) =>
            { status := 500, headers := [],
              body := Bytes.json (CreateMappingErrorResponse callbackRoute e) }
        | .ok responseBody =>
            { status := resp.StatusCode,
              headers := resp.Headers.filter (fun p =>
                p.1 ≠ "Host" && p.1 ≠ "Content-Encoding" && p.1 ≠ "Content-Length"),
              body := responseBody }

/-- `ForwardRequest` (`forward_controller.go:291-381`), the
`POST /api/*` handler.  Oracles: `tr` the transformer instance,
`registerFail` whether the Redis `SET` of the slot fails, `wake` what
arrives on the wake channel, `upstream` the sync-leg `Do` outcome.
Returns the response, the final store state and the event trace. -/
def ForwardRequest (tr : Option Transformer) (targetURL : String)
    (registerFail : Bool) (wake : WakeOutcome) (upstream : Option UpstreamResponse)
    (st : StoreState) (req : HttpRequest) :
    HttpResponse × StoreState × List Event :=
  if req.wildcard = "" then
    ({ status := 400, headers := [], body := errorBody "sub-route is required" }, st, [])
  else
    match contextOf req.body with
    | none =>
        ({ status := 400, headers := [], body := errorBody "Invalid JSON body" }, st, [])
    | some (transactionID, messageID) =>
      if transactionID = "" ∨ messageID = "" then
        ({ status := 400, headers := [],
           body := errorBody "context.transaction_id and context.message_id are required" },
         st, [])
      else if isSyncRoute req.wildcard then
        (forwardRequestSync tr upstream req.wildcard req.body, st, [])
      else
        match AddPendingRequest registerFail st req.wildcard transactionID messageID with
        | (.error _, ev) =>
            ({ status := 500, headers := [],
               body := errorBody "Failed to register pending request" }, st, ev)
        | (.ok st1, ev1) =>
          -- `go fc.forwardRequestAsync(...)`: the detached dispatch is
          -- spawned here, before WaitForCallback subscribes.
          let ev2 := [Event.dispatch (targetURL ++ "/" ++ req.wildcard)]
          let waited := WaitForCallback wake req.wildcard transactionID messageID clientWaitSeconds
          -- deferred RemovePendingRequest runs on every exit path
          let cleaned := RemovePendingRequest st1 req.wildcard transactionID messageID
          let trace := ev1 ++ ev2 ++ waited.2 ++ cleaned.2
          match waited.1 with
          | .error _ =>
              ({ status := 408, headers := [], body := timeoutNackBody }, cleaned.1, trace)
          | .ok response =>
              ({ status := response.StatusCode,
                 headers := response.Headers,
                 body := response.Body }, cleaned.1, trace)

/-- `HandleWebhook` (`webhook_controller.go`), the `POST /webhook/*`
handler: validate, reverse-map the callback route, snapshot headers
(minus `Host`), publish through the callback manager, and answer
ACK / NACK. -/
def HandleWebhook (fail : StoreFail) (st : StoreState) (req : HttpRequest) :
    HttpResponse × StoreState × List Event :=
  if req.wildcard = "" then
    ({ status := 400, headers := [], body := errorBody "sub-route is required" }, st, [])
  else
    match contextOf req.body with
    | none =>
        ({ status := 400, headers := [], body := errorBody "Invalid JSON body" }, st, [])
    | some (transactionID, messageID) =>
      if transactionID = "" ∨ messageID = "" then
        ({ status := 400, headers := [],
           body := errorBody "context.transaction_id and context.message_id are required" },
         st, [])
      else
        match reverseLookup req.wildcard with
        | none =>
            ({ status := 400, headers := [],
               body := errorBody ("Invalid callback route: " ++ req.wildcard) }, st, [])
        | some forwardRoute =>
          let callbackResponse : CallbackResponse :=
            { Body := req.body, StatusCode := 200,
              Headers := req.headers.filter (fun p => p.1 ≠ "Host") }
          match PublishCallback fail st forwardRoute transactionID messageID callbackResponse with
          | (.ok _, st2, ev) =>
              ({ status := 200, headers := [], body := ackBody }, st2, ev)
          | (.error _, st2, ev) =>
              ({ status := 404, headers := [], body := noPendingNackBody }, st2, ev)

/-! ## Helper lemmas -/

/-- A string containing no `'#'` separator character. -/
def hashFree (s : String) : Prop := '#' ∉ s.data

instance (s : String) : Decidable (hashFree s) := by
  unfold hashFree; infer_instance

/-- Splitting at the first `'#'` is unambiguous when the prefixes are
`'#'`-free. -/
lemma append_hashfree_inj : ∀ {a c : List Char} {b d : List Char},
    '#' ∉ a → '#' ∉ c → a ++ '#' :: b = c ++ '#' :: d → a = c ∧ b = d := by
  intro a
  induction a with
  | nil =>
    intro c b d _ hc h
    cases c with
    | nil => simpa using h
    | cons y ys =>
      exfalso
      have hy : ('#' : Char) = y := by simpa using congrArg (fun l => l.head?) h
      exact hc (by simp [← hy])
  | cons x xs ih =>
    intro c b d ha hc h
    cases c with
    | nil =>
      exfalso
      have hx : x = '#' := by simpa using congrArg (fun l => l.head?) h
      exact ha (by simp [hx])
    | cons y ys =>
      have hxy : x = y ∧ xs ++ '#' :: b = ys ++ '#' :: d := by simpa using h
      have hrec := ih (by intro hmem; exact ha (List.mem_cons_of_mem _ hmem))
        (by intro hmem; exact hc (List.mem_cons_of_mem _ hmem)) hxy.2
      exact ⟨by rw [hxy.1, hrec.1], hrec.2⟩

/-- Injectivity of `p ++ a ++ "#" ++ m ++ "#" ++ t` in `(a, m, t)` when
the three components are `'#'`-free (for any fixed prefix `p`). -/
lemma sepcat_inj {p a m t a' m' t' : String}
    (ha : hashFree a) (hm : hashFree m) (_ht : hashFree t)
    (ha' : hashFree a') (hm' : hashFree m') (_ht' : hashFree t')
    (h : p ++ a ++ "#" ++ m ++ "#" ++ t = p ++ a' ++ "#" ++ m' ++ "#" ++ t') :
    a = a' ∧ m = m' ∧ t = t' := by
  have h2 := congrArg String.data h
  simp only [String.data_append, List.append_assoc] at h2
  have h3 := List.append_cancel_left h2
  simp only [List.singleton_append] at h3
  have h4 := append_hashfree_inj ha ha' h3
  have h5 := append_hashfree_inj hm hm' h4.2
  exact ⟨String.ext h4.1, String.ext h5.1, String.ext h5.2⟩

/-! ## Claim theorems -/

/-- A well-formed request body carrying the correlation pair
`(transaction_id, message_id) = ("t1", "m1")`; used as the concrete
input of witnesses and counterexamples. -/
def validBody : Bytes :=
  Bytes.json (Json.obj [("context", Json.obj
    [("transaction_id", Json.str "t1"), ("message_id", Json.str "m1")])])

/-- C6: the pending key is `"Sync#" ++ action ++ "#" ++ msg ++ "#" ++ txn`,
the wake channel is `"Callback#" ++ action ++ "#" ++ msg ++ "#" ++ txn`,
and the two differ only in their prefix (they share the suffix derived
from the tuple), so a publish for a tuple addresses exactly the channel
subscribed by the waiter that registered the slot for that tuple. -/
theorem c6_key_channel_derivation (action txn msg : String) :
    makePendingKey action txn msg = "Sync#" ++ action ++ "#" ++ msg ++ "#" ++ txn ∧
    makeCallbackChannel action txn msg = "Callback#" ++ action ++ "#" ++ msg ++ "#" ++ txn ∧
    (∃ suffix,
      makePendingKey action txn msg = "Sync" ++ suffix ∧
      makeCallbackChannel action txn msg = "Callback" ++ suffix) ∧
    (WaitForCallback WakeOutcome.timeout action txn msg clientWaitSeconds).2 =
      [Event.subscribe (makeCallbackChannel action txn msg)] := by
  refine ⟨rfl, rfl, ⟨"#" ++ action ++ "#" ++ msg ++ "#" ++ txn, ?_, ?_⟩, rfl⟩
  · apply String.ext
    simp [makePendingKey, String.data_append]
  · apply String.ext
    simp [makeCallbackChannel, String.data_append]

/-- C6 witness: the derivation evaluated at a concrete tuple. -/
theorem c6_key_channel_derivation_witness :
    makePendingKey "select" "t1" "m1" = "Sync#" ++ "select" ++ "#" ++ "m1" ++ "#" ++ "t1" :=
  (c6_key_channel_derivation "select" "t1" "m1").1

/-- C9: the key/channel derivation is not injective on correlation
fields containing `'#'` — `(txn, msg) = ("c", "a#b")` and
`("b#c", "a")` alias the same key and the same channel — while
injectivity does hold when the action and both correlation fields are
`'#'`-free. -/
theorem c9_hash_aliasing :
    (makePendingKey "select" "c" "a#b" = makePendingKey "select" "b#c" "a" ∧
     makeCallbackChannel "select" "c" "a#b" = makeCallbackChannel "select" "b#c" "a" ∧
     (("c", "a#b") : String × String) ≠ ("b#c", "a")) ∧
    (∀ action txn msg action' txn' msg' : String,
      hashFree action → hashFree txn → hashFree msg →
      hashFree action' → hashFree txn' → hashFree msg' →
      makePendingKey action txn msg = makePendingKey action' txn' msg' →
      action = action' ∧ txn = txn' ∧ msg = msg') ∧
    (∀ action txn msg action' txn' msg' : String,
      hashFree action → hashFree txn → hashFree msg →
      hashFree action' → hashFree txn' → hashFree msg' →
      makeCallbackChannel action txn msg = makeCallbackChannel action' txn' msg' →
      action = action' ∧ txn = txn' ∧ msg = msg') := by
  refine ⟨⟨by decide, by decide, by decide⟩, ?_, ?_⟩
  · intro action txn msg action' txn' msg' ha ht hm ha' ht' hm' h
    have := sepcat_inj (p := "Sync#") ha hm ht ha' hm' ht' h
    exact ⟨this.1, this.2.2, this.2.1⟩
  · intro action txn msg action' txn' msg' ha ht hm ha' ht' hm' h
    have := sepcat_inj (p := "Callback#") ha hm ht ha' hm' ht' h
    exact ⟨this.1, this.2.2, this.2.1⟩

/-- C9 witness: the injective direction applied at concrete `'#'`-free
strings. -/
theorem c9_hash_aliasing_witness :
    ("select" : String) = "select" ∧ ("t1" : String) = "t1" ∧ ("m1" : String) = "m1" :=
  c9_hash_aliasing.2.1 "select" "t1" "m1" "select" "t1" "m1"
    (by decide) (by decide) (by decide) (by decide) (by decide) (by decide) rfl

/-- C1 counterexample: the claim predicts a `400 Invalid callback
route` for `on_search`, but the code's `RouteMapping` contains the sync
actions, so the reverse lookup of `on_search` succeeds (yielding
`search`) and a valid `on_search` webhook with no pending slot is
answered `404`, not `400`. -/
theorem c1_counterexample :
    reverseLookup "on_search" = some "search" ∧
    reverseLookup "on_discover" = some "discover" ∧
    (HandleWebhook StoreFail.none [] ⟨"on_search", validBody, []⟩).1.status = 404 ∧
    (HandleWebhook StoreFail.none [] ⟨"on_search", validBody, []⟩).1.status ≠ 400 :=
  ⟨rfl, rfl, rfl, by decide⟩

/-- C1 amended: the route table maps all eleven actions — the two sync
actions included — so exactly the eleven callback names
`on_discover … on_status` pass the reverse lookup; a webhook whose
callback action is outside the table (e.g. `on_bogus`) gets `400` with
body `{"error": "Invalid callback route: " ++ callback_action}`. -/
theorem c1_amended (fail : StoreFail) (st : StoreState) (req : HttpRequest)
    (txn msg : String)
    (hw : req.wildcard ≠ "")
    (hctx : contextOf req.body = some (txn, msg))
    (ht : txn ≠ "") (hm : msg ≠ "")
    (hcb : reverseLookup req.wildcard = none) :
    HandleWebhook fail st req =
      ({ status := 400, headers := [],
         body := errorBody ("Invalid callback route: " ++ req.wildcard) }, st, []) ∧
    ∀ cb : String, (reverseLookup cb).isSome = true ↔
      cb ∈ ["on_discover", "on_search", "on_select", "on_init", "on_confirm",
            "on_update", "on_track", "on_rating", "on_support", "on_cancel",
            "on_status"] := by
  constructor
  · simp only [HandleWebhook]
    rw [if_neg hw]
    simp only [hctx]
    rw [if_neg (by tauto : ¬(txn = "" ∨ msg = ""))]
    simp only [hcb]
  · intro cb
    constructor
    · intro h
      cases hfind : List.find? (fun p => decide (p.2 = cb)) RouteMapping with
      | none => rw [reverseLookup, hfind] at h; simp at h
      | some p =>
        have hp := List.mem_of_find?_eq_some hfind
        have hpred := List.find?_some hfind
        simp only [decide_eq_true_eq] at hpred
        fin_cases hp <;> simp_all
    · intro hmem
      simp only [List.mem_cons, List.not_mem_nil, or_false] at hmem
      rcases hmem with rfl | rfl | rfl | rfl | rfl | rfl | rfl | rfl | rfl | rfl | rfl <;> rfl

/-- C1 witness: the amended claim evaluated at `on_bogus`. -/
theorem c1_amended_witness :
    HandleWebhook StoreFail.none [] ⟨"on_bogus", validBody, []⟩ =
      ({ status := 400, headers := [],
         body := errorBody "Invalid callback route: on_bogus" }, [], []) :=
  (c1_amended StoreFail.none [] ⟨"on_bogus", validBody, []⟩ "t1" "m1"
    (by decide) rfl (by decide) (by decide) rfl).1

/-- C3 counterexample: for a valid `on_select` webhook whose store
exists-check fails, the handler answers `404` with the missing-pending
NACK — not the `500` plain error body the claim predicts. -/
theorem c3_counterexample :
    (HandleWebhook StoreFail.atExists [] ⟨"on_select", validBody, []⟩).1 =
      { status := 404, headers := [], body := noPendingNackBody } ∧
    (HandleWebhook StoreFail.atExists [] ⟨"on_select", validBody, []⟩).1.status ≠ 500 :=
  ⟨rfl, by decide⟩

/-- C3 amended: on the webhook path every `PublishCallback` error —
store failures on the exists check, the publish, or the delete included
— is answered `404` with the missing-pending NACK body, exactly like an
absent slot; no `500` is produced on this path (the `500` store-failure
response exists only on the forward path when slot registration
fails). -/
theorem c3_amended (fail : StoreFail) (st : StoreState) (req : HttpRequest)
    (txn msg fwd : String)
    (hw : req.wildcard ≠ "")
    (hctx : contextOf req.body = some (txn, msg))
    (ht : txn ≠ "") (hm : msg ≠ "")
    (hcb : reverseLookup req.wildcard = some fwd)
    (hfail : fail ≠ StoreFail.none) :
    (HandleWebhook fail st req).1 =
      { status := 404, headers := [], body := noPendingNackBody } := by
  simp only [HandleWebhook]
  rw [if_neg hw]
  simp only [hctx]
  rw [if_neg (by tauto : ¬(txn = "" ∨ msg = ""))]
  simp only [hcb]
  rcases fail with _ | _ | _ | _
  · exact absurd rfl hfail
  · simp [PublishCallback]
  · by_cases hk : makePendingKey fwd txn msg ∈ st <;>
      simp [PublishCallback, hk]
  · by_cases hk : makePendingKey fwd txn msg ∈ st <;>
      simp [PublishCallback, hk]

/-- C3 witness: the amended claim at a present slot with a failing
publish. -/
theorem c3_amended_witness :
    (HandleWebhook StoreFail.atPublish [makePendingKey "select" "t1" "m1"]
        ⟨"on_select", validBody, []⟩).1 =
      { status := 404, headers := [], body := noPendingNackBody } :=
  c3_amended StoreFail.atPublish [makePendingKey "select" "t1" "m1"]
    ⟨"on_select", validBody, []⟩ "t1" "m1" "select"
    (by decide) rfl (by decide) (by decide) rfl (by decide)

/-- C4: `PublishCallback` first checks slot existence; an absent slot
yields the `no pending request found` error with no publish, no delete
and an unchanged store; a present slot yields a publish on the derived
channel followed by the slot delete, in that order. -/
theorem c4_publish_steps (st : StoreState) (action txn msg : String)
    (envelope : CallbackResponse) :
    (makePendingKey action txn msg ∉ st →
      PublishCallback StoreFail.none st action txn msg envelope =
        (.error "no pending request found", st,
         [Event.existsCheck (makePendingKey action txn msg)])) ∧
    (makePendingKey action txn msg ∈ st →
      PublishCallback StoreFail.none st action txn msg envelope =
        (.ok (), st.filter (fun k => k ≠ makePendingKey action txn msg),
         [Event.existsCheck (makePendingKey action txn msg),
          Event.publish (makeCallbackChannel action txn msg) (Payload.enc envelope),
          Event.delKey (makePendingKey action txn msg)])) := by
  constructor <;> intro h <;> simp [PublishCallback, h]

/-- C4 witness: both branches evaluated at a concrete slot. -/
theorem c4_publish_steps_witness :
    PublishCallback StoreFail.none [makePendingKey "select" "t1" "m1"]
        "select" "t1" "m1" ⟨Bytes.nonJson "", 200, []⟩ =
      (.ok (), [makePendingKey "select" "t1" "m1"].filter
          (fun k => k ≠ makePendingKey "select" "t1" "m1"),
       [Event.existsCheck (makePendingKey "select" "t1" "m1"),
        Event.publish (makeCallbackChannel "select" "t1" "m1")
          (Payload.enc ⟨Bytes.nonJson "", 200, []⟩),
        Event.delKey (makePendingKey "select" "t1" "m1")]) ∧
    PublishCallback StoreFail.none [] "select" "t1" "m1" ⟨Bytes.nonJson "", 200, []⟩ =
      (.error "no pending request found", [],
       [Event.existsCheck (makePendingKey "select" "t1" "m1")]) :=
  ⟨(c4_publish_steps [makePendingKey "select" "t1" "m1"] "select" "t1" "m1"
      ⟨Bytes.nonJson "", 200, []⟩).2 (by simp),
   (c4_publish_steps [] "select" "t1" "m1" ⟨Bytes.nonJson "", 200, []⟩).1 (by simp)⟩

/-- C2: on a valid async request the handler's event trace is
register, then the spawn of the detached upstream dispatch, then the
pub/sub subscribe, then the deferred cleanup — the dispatch is
initiated *before* the subscription is established, contradicting the
claimed `register → subscribe → dispatch` order. -/
theorem c2_dispatch_before_subscribe :
    (ForwardRequest none "http://localhost:8080" false WakeOutcome.timeout none []
        ⟨"select", validBody, []⟩).2.2 =
      [Event.setKey (makePendingKey "select" "t1" "m1") pendingTTLSeconds,
       Event.dispatch "http://localhost:8080/select",
       Event.subscribe (makeCallbackChannel "select" "t1" "m1"),
       Event.delKey (makePendingKey "select" "t1" "m1")] := rfl

/-- C7: a pending slot is registered only on a validated async request:
an unparsable body or an empty correlation field yields `400` with no
slot registration and an unchanged store, and a sync action never
registers a slot regardless of outcome. -/
theorem c7_validation_gates_registration (tr : Option Transformer) (targetURL : String)
    (registerFail : Bool) (wake : WakeOutcome) (upstream : Option UpstreamResponse)
    (st : StoreState) (req : HttpRequest) :
    ((contextOf req.body = none ∨
        ∃ txn msg, contextOf req.body = some (txn, msg) ∧ (txn = "" ∨ msg = "")) →
      (ForwardRequest tr targetURL registerFail wake upstream st req).1.status = 400 ∧
      ((ForwardRequest tr targetURL registerFail wake upstream st req).2.2).filter
          Event.isSetKey = [] ∧
      (ForwardRequest tr targetURL registerFail wake upstream st req).2.1 = st) ∧
    (isSyncRoute req.wildcard = true →
      ((ForwardRequest tr targetURL registerFail wake upstream st req).2.2).filter
          Event.isSetKey = [] ∧
      (ForwardRequest tr targetURL registerFail wake upstream st req).2.1 = st) := by
  by_cases hw : req.wildcard = ""
  · refine ⟨fun _ => ?_, fun hsync => ?_⟩
    · simp [ForwardRequest, hw]
    · rw [hw] at hsync
      exact absurd hsync (by decide)
  · refine ⟨?_, ?_⟩
    · rintro (hnone | ⟨txn, msg, hctx, hempty⟩)
      · simp [ForwardRequest, hw, hnone]
      · simp only [ForwardRequest]
        rw [if_neg hw]
        simp only [hctx]
        rw [if_pos hempty]
        simp
    · intro hsync
      cases hb : contextOf req.body with
      | none => simp [ForwardRequest, hw, hb]
      | some pair =>
        obtain ⟨txn, msg⟩ := pair
        by_cases hempty : txn = "" ∨ msg = ""
        · simp only [ForwardRequest]
          rw [if_neg hw]
          simp only [hb]
          rw [if_pos hempty]
          simp
        · simp only [ForwardRequest]
          rw [if_neg hw]
          simp only [hb]
          rw [if_neg hempty, if_pos hsync]
          simp

/-- C7 witness: the gate evaluated on an invalid body (empty
`message_id`) and on a sync action. -/
theorem c7_validation_gates_registration_witness :
    ((ForwardRequest none "http://localhost:8080" false WakeOutcome.timeout none []
        ⟨"select", Bytes.nonJson "not json", []⟩).1.status = 400 ∧
     ((ForwardRequest none "http://localhost:8080" false WakeOutcome.timeout none []
        ⟨"select", Bytes.nonJson "not json", []⟩).2.2).filter Event.isSetKey = [] ∧
     (ForwardRequest none "http://localhost:8080" false WakeOutcome.timeout none []
        ⟨"select", Bytes.nonJson "not json", []⟩).2.1 = []) ∧
    (((ForwardRequest none "http://localhost:8080" false WakeOutcome.timeout none []
        ⟨"search", validBody, []⟩).2.2).filter Event.isSetKey = [] ∧
     (ForwardRequest none "http://localhost:8080" false WakeOutcome.timeout none []
        ⟨"search", validBody, []⟩).2.1 = []) :=
  ⟨(c7_validation_gates_registration none "http://localhost:8080" false
      WakeOutcome.timeout none [] ⟨"select", Bytes.nonJson "not json", []⟩).1
      (Or.inl rfl),
   (c7_validation_gates_registration none "http://localhost:8080" false
      WakeOutcome.timeout none [] ⟨"search", validBody, []⟩).2 rfl⟩

/-- C8: a valid async request whose wait elapses without a wake is
answered `408` with exactly the canonical timeout NACK body, the wait
bound being 30 seconds. -/
theorem c8_timeout_nack (tr : Option Transformer) (targetURL : String)
    (upstream : Option UpstreamResponse) (st : StoreState) (req : HttpRequest)
    (txn msg : String)
    (hw : req.wildcard ≠ "")
    (hctx : contextOf req.body = some (txn, msg))
    (ht : txn ≠ "") (hm : msg ≠ "")
    (hsync : isSyncRoute req.wildcard = false) :
    (ForwardRequest tr targetURL false WakeOutcome.timeout upstream st req).1 =
      { status := 408, headers := [], body := timeoutNackBody } ∧
    timeoutNackBody = Bytes.json (Json.obj
      [("message", Json.obj [("ack", Json.obj [("status", Json.str "NACK")])]),
       ("error", Json.obj
         [("type", Json.str "TIMEOUT"),
          ("code", Json.str "REQUEST_TIMEOUT"),
          ("message", Json.str "No response received within 30 seconds")])]) ∧
    clientWaitSeconds = 30 := by
  refine ⟨?_, rfl, rfl⟩
  simp only [ForwardRequest]
  rw [if_neg hw]
  simp only [hctx]
  rw [if_neg (by tauto : ¬(txn = "" ∨ msg = "")), if_neg (by simp [hsync])]
  simp [AddPendingRequest, WaitForCallback, RemovePendingRequest]

/-- C8 witness: the timeout response evaluated on a concrete `select`
request. -/
theorem c8_timeout_nack_witness :
    (ForwardRequest none "http://localhost:8080" false WakeOutcome.timeout none []
        ⟨"select", validBody, []⟩).1 =
      { status := 408, headers := [], body := timeoutNackBody } :=
  (c8_timeout_nack none "http://localhost:8080" none [] ⟨"select", validBody, []⟩
    "t1" "m1" (by decide) rfl (by decide) (by decide) rfl).1

/-- C10: every error from the wait — not only a timeout — is reported
to the client as the `408` timeout NACK; in particular a wake-channel
message whose payload does not decode as a callback envelope makes the
wait return a decode error, and the client still receives the `408`
"No response received within 30 seconds" body. -/
theorem c10_wait_error_reported_as_timeout (tr : Option Transformer) (targetURL : String)
    (upstream : Option UpstreamResponse) (st : StoreState) (req : HttpRequest)
    (txn msg : String)
    (hw : req.wildcard ≠ "")
    (hctx : contextOf req.body = some (txn, msg))
    (ht : txn ≠ "") (hm : msg ≠ "")
    (hsync : isSyncRoute req.wildcard = false) :
    (∀ (wake : WakeOutcome) (e : String),
      (WaitForCallback wake req.wildcard txn msg clientWaitSeconds).1 = .error e →
      (ForwardRequest tr targetURL false wake upstream st req).1 =
        { status := 408, headers := [], body := timeoutNackBody }) ∧
    (∀ p : Payload, unmarshalCallbackResponse p = none →
      (WaitForCallback (WakeOutcome.message p) req.wildcard txn msg
          clientWaitSeconds).1 = .error "failed to unmarshal callback response") := by
  constructor
  · intro wake e he
    simp only [ForwardRequest]
    rw [if_neg hw]
    simp only [hctx]
    rw [if_neg (by tauto : ¬(txn = "" ∨ msg = "")), if_neg (by simp [hsync])]
    simp [AddPendingRequest, he]
  · intro p hp
    simp [WaitForCallback, hp]

/-- C10 witness: a wake message with an undecodable payload evaluated
on a concrete `select` request. -/
theorem c10_wait_error_reported_as_timeout_witness :
    (ForwardRequest none "http://localhost:8080" false
        (WakeOutcome.message (Payload.raw (Bytes.nonJson "garbage"))) none []
        ⟨"select", validBody, []⟩).1 =
      { status := 408, headers := [], body := timeoutNackBody } :=
  (c10_wait_error_reported_as_timeout none "http://localhost:8080" none []
      ⟨"select", validBody, []⟩ "t1" "m1" (by decide) rfl (by decide) (by decide) rfl).1
    (WakeOutcome.message (Payload.raw (Bytes.nonJson "garbage")))
    "failed to unmarshal callback response" rfl

/-- C5: on the sync leg, when a mapping exists for the callback name
`"on_" ++ action`, the handler applies the *forward* transform of that
callback-named template to the (gzip-decompressed, if applicable)
upstream response body and returns the result with upstream's status;
a failing transform yields `500` with a `mappingError` body whose
`route` is `"on_" ++ action`. -/
theorem c5_sync_response_transform (t : Transformer) (targetURL : String)
    (registerFail : Bool) (wake : WakeOutcome) (u : UpstreamResponse)
    (st : StoreState) (req : HttpRequest) (txn msg : String) (rb respBody : Bytes)
    (hw : req.wildcard ≠ "")
    (hctx : contextOf req.body = some (txn, msg))
    (ht : txn ≠ "") (hm : msg ≠ "")
    (hsync : isSyncRoute req.wildcard = true)
    (hmap : HasMapping t ("on_" ++ req.wildcard) = true)
    (hreq : syncRequestStage (some t) req.wildcard req.body = .ok rb)
    (hgz : gzipStage u = .ok respBody) :
    (∀ out, TransformForward t ("on_" ++ req.wildcard) respBody = .ok out →
      (ForwardRequest (some t) targetURL registerFail wake (some u) st req).1 =
        { status := u.StatusCode,
          headers := u.Headers.filter (fun p =>
            p.1 ≠ "Host" && p.1 ≠ "Content-Encoding" && p.1 ≠ "Content-Length"),
          body := out }) ∧
    (∀ e, TransformForward t ("on_" ++ req.wildcard) respBody = .error e →
      (ForwardRequest (some t) targetURL registerFail wake (some u) st req).1 =
        { status := 500, headers := [],
          body := Bytes.json (CreateMappingErrorResponse ("on_" ++ req.wildcard) e) } ∧
      ∃ rest, CreateMappingErrorResponse ("on_" ++ req.wildcard) e =
        Json.obj [("mappingError",
          Json.obj (("route", Json.str ("on_" ++ req.wildcard)) :: rest))]) := by
  have hred : (ForwardRequest (some t) targetURL registerFail wake (some u) st req).1 =
      forwardRequestSync (some t) (some u) req.wildcard req.body := by
    simp only [ForwardRequest]
    rw [if_neg hw]
    simp only [hctx]
    rw [if_neg (by tauto : ¬(txn = "" ∨ msg = "")), if_pos hsync]
  constructor
  · intro out hout
    rw [hred]
    simp only [forwardRequestSync, hreq, hgz, syncResponseStage]
    rw [if_pos hmap]
    simp only [hout]
  · intro e herr
    refine ⟨?_, ?_⟩
    · rw [hred]
      simp only [forwardRequestSync, hreq, hgz, syncResponseStage]
      rw [if_pos hmap]
      simp only [herr]
    · cases hErrField : e.Err with
      | some s =>
          exact ⟨[("message", Json.str "Failed to transform response"),
                  ("direction", Json.str e.Direction),
                  ("details", Json.str e.Message),
                  ("error", Json.str s)],
                 by simp [CreateMappingErrorResponse, hErrField]⟩
      | none =>
          exact ⟨[("message", Json.str "Failed to transform response"),
                  ("direction", Json.str e.Direction),
                  ("details", Json.str e.Message)],
                 by simp [CreateMappingErrorResponse, hErrField]⟩

/-- C5 witness: a transformer with an identity mapping for `on_search`
evaluated on a concrete `search` request. -/
theorem c5_sync_response_transform_witness :
    (ForwardRequest
        (some ⟨[("on_search", ⟨"tmpl", ""⟩)], fun _ => none, fun _ j => .ok j⟩)
        "http://localhost:8080" false WakeOutcome.timeout
        (some ⟨200, [], Bytes.json (Json.str "R")⟩) []
        ⟨"search", validBody, []⟩).1 =
      { status := 200, headers := [], body := Bytes.json (Json.str "R") } :=
  (c5_sync_response_transform
      ⟨[("on_search", ⟨"tmpl", ""⟩)], fun _ => none, fun _ j => .ok j⟩
      "http://localhost:8080" false WakeOutcome.timeout
      ⟨200, [], Bytes.json (Json.str "R")⟩ [] ⟨"search", validBody, []⟩
      "t1" "m1" validBody (Bytes.json (Json.str "R"))
      (by decide) rfl (by decide) (by decide) rfl rfl rfl rfl).1
    (Bytes.json (Json.str "R")) rfl

end BAP
